import Mathlib

/-!
Verification of the mini_map_splicing image-stitching program (src/main.cpp)
against its natural-language specification.

The repository's own source contains the pipeline glue:
`detect_and_show_features` (ORB extraction guarded by a 50-keypoint
threshold, brute-force Hamming matching guarded by a 10-match threshold)
and `stitch_images` (the cv::Stitcher call with its status switch and
exception handler).  The stage internals — ORB's detector, the
brute-force matcher and the RANSAC-based geometric verifier — live in the
OpenCV library and are not part of the source tree; those are modelled
from the specification (sections 4.1-4.4, 6, 7), and each such definition
carries a doc comment saying so.
-/

set_option autoImplicit false

namespace MiniMap

/-- An image: a 2D grid of pixel samples (width, height, flattened pixel
data), per the spec's data model section 3.  The core only ever reads it. -/
structure Image where
  rows : Nat
  cols : Nat
  pixels : List Nat
deriving DecidableEq, Repr

/-- Default image used for out-of-range store reads. -/
def defaultImage : Image := ⟨0, 0, []⟩

/-- A keypoint: a 2D sub-pixel location plus scale and orientation
(cv::KeyPoint's pt, size, angle), per spec section 3. -/
structure Keypoint where
  x : Rat
  y : Rat
  size : Rat
  angle : Rat
deriving DecidableEq, Repr

/-- Default keypoint for out-of-range index reads. -/
def defaultKeypoint : Keypoint := ⟨0, 0, 0, 0⟩

/-- An ORB descriptor: a fixed-length binary vector (spec section 3),
modelled as a list of bits. -/
abbrev Descriptor : Type := List Bool

/-- A match (cv::DMatch): the query-side index, the train-side index of
its best partner, and the distance between the two descriptors. -/
structure DMatch where
  queryIdx : Nat
  trainIdx : Nat
  distance : Nat
deriving DecidableEq, Repr

/-- Modelled from the spec: `maxFeatures`, the cap on keypoints per image
(section 6); the source passes 5000 to `cv::ORB::create` at lines 44 and 86. -/
def maxFeatures : Nat := 5000

/-- Modelled from the spec: `minKeypointCount`, the threshold to attempt
matching (section 6); the source compares against 50 at line 55. -/
def minKeypointCount : Nat := 50

/-- Modelled from the spec: `minMatchCount`, the threshold to attempt
verification (section 6); the source compares against 10 at line 68. -/
def minMatchCount : Nat := 10

/-- Modelled from the spec: `extract(image) -> (keypoints, descriptors)`
(section 4.1), the behaviour of `orb->detectAndCompute`.  The raw ORB
response (salient points with their descriptors, in detection order) is
OpenCV library code and is abstracted as the `detector` argument; `extract`
keeps at most `maxF` of them and returns the keypoint sequence parallel to
the descriptor sequence, order-correlated by index. -/
def extract (detector : Image → List (Keypoint × Descriptor)) (maxF : Nat)
    (img : Image) : List Keypoint × List Descriptor :=
  let kd := (detector img).take maxF
  (kd.map Prod.fst, kd.map Prod.snd)

/-- Hamming distance between two binary descriptors: the number of bit
positions where they differ (cv::NORM_HAMMING, the metric passed to the
BFMatcher at line 61). -/
def hammingDist (a b : Descriptor) : Nat :=
  ((List.zipWith (fun x y => x != y) a b).filter id).length

/-- Modelled from the spec: the inner loop of the brute-force matcher
(section 4.2) — the nearest neighbour of descriptor `a` in the train set,
as `some (index, distance)`, preferring the earlier index on ties;
`none` when the train set is empty. -/
def bestTrain (a : Descriptor) : List Descriptor → Option (Nat × Nat)
  | [] => none
  | b :: bs =>
    match bestTrain a bs with
    | none => some (0, hammingDist a b)
    | some (j, d) =>
      if hammingDist a b ≤ d then some (0, hammingDist a b) else some (j + 1, d)

/-- Modelled from the spec: `match(descriptorsA, descriptorsB) -> matches`
(section 4.2), the behaviour of `matcher.match` at line 63 with
cross-checking off: one match per query descriptor, pairing it with its
nearest train neighbour under Hamming distance; the empty sequence when
either input is empty. -/
def bfMatch (A B : List Descriptor) : List DMatch :=
  if B = [] then []
  else
    (List.range A.length).map fun i =>
      match bestTrain (A.getD i []) B with
      | some (j, d) => ⟨i, j, d⟩
      | none => ⟨i, 0, 0⟩

/-- The three observable outcomes of `detect_and_show_features`
(src/main.cpp lines 43-77): the early return at line 57 after the
"Not enough features" message, the early return at line 70 after the
"Not enough matches" message, and the successful return at line 76. -/
inductive FeatureResult where
  | success
  | insufficientFeatures
  | insufficientMatches
deriving DecidableEq, Repr

/-- Embedding of `detect_and_show_features` (src/main.cpp lines 43-77)
with its exit paths kept distinct.  The ORB response is the `detector`
argument (see `extract`) and the matcher is an argument so that
independence from it below the feature threshold is expressible; the
program instantiates it with `bfMatch`.  Drawing and showing the match
image (lines 73-75) are display I/O, external per spec section 1. -/
def detectAndShowFeaturesR
    (matcher : List Descriptor → List Descriptor → List DMatch)
    (detector : Image → List (Keypoint × Descriptor))
    (img1 img2 : Image) : FeatureResult :=
  let e1 := extract detector maxFeatures img1
  let e2 := extract detector maxFeatures img2
  if e1.1.length < minKeypointCount ∨ e2.1.length < minKeypointCount then
    .insufficientFeatures
  else
    let ms := matcher e1.2 e2.2
    if ms.length < minMatchCount then .insufficientMatches
    else .success

/-- The Boolean returned by `detect_and_show_features` at lines 57, 70
and 76: `true` exactly on the success path. -/
def detect_and_show_features (detector : Image → List (Keypoint × Descriptor))
    (img1 img2 : Image) : Bool :=
  match detectAndShowFeaturesR bfMatch detector img1 img2 with
  | .success => true
  | _ => false

/-- The stitching mode passed to `cv::Stitcher::create`
(`cv::Stitcher::PANORAMA` or `cv::Stitcher::SCANS`). -/
inductive StitchMode where
  | panoramaMode
  | scansMode
deriving DecidableEq, Repr

/-- The `cv::Stitcher::Status` codes handled by the switch at
src/main.cpp lines 98-111. -/
inductive StitchStatus where
  | statusOk
  | errNeedMoreImgs
  | errHomographyEstFail
  | errCameraParamsAdjustFail
deriving DecidableEq, Repr

/-- A cv::Exception as caught at src/main.cpp line 114. -/
structure CvException where
  msg : String
deriving DecidableEq, Repr

/-- The typed failure kinds of spec sections 4.4 and 7 for the composer. -/
inductive StitchFailure where
  | tooFewImages
  | homographyEstimationFailed
  | cameraParamsAdjustmentFailed
  | unknown
deriving DecidableEq, Repr

/-- The observable outcome of `stitch_images`: the result panorama on the
`true` return at line 93, or the failure kind named by the diagnostic the
function emits before the `false` returns at lines 112 and 116. -/
inductive StitchResult where
  | panorama (img : Image)
  | failure (f : StitchFailure)
deriving DecidableEq, Repr

/-- The switch over the stitcher status at src/main.cpp lines 98-111:
`ERR_NEED_MORE_IMGS`, `ERR_HOMOGRAPHY_EST_FAIL` and
`ERR_CAMERA_PARAMS_ADJUST_FAIL` each name their stage; everything else
falls to the `default:` (unknown) branch. -/
def classifyStatus : StitchStatus → StitchFailure
  | .errNeedMoreImgs => .tooFewImages
  | .errHomographyEstFail => .homographyEstimationFailed
  | .errCameraParamsAdjustFail => .cameraParamsAdjustmentFailed
  | _ => .unknown

/-- Embedding of `stitch_images` (src/main.cpp lines 80-118).  The call
`stitcher->stitch(images, result)` is OpenCV library code, abstracted as
the `stitchFn` argument: it yields a status and a result image, or raises
a cv::Exception (the `Except.error` case, caught at line 114).
A status of OK returns the panorama (line 93); any other status is
classified by the switch and returned as a failure (line 112); a caught
exception returns a failure as well (line 116), the catch-all kind. -/
def stitch_images
    (stitchFn : List Image → StitchMode → Except CvException (StitchStatus × Image))
    (images : List Image) (mode : StitchMode) : StitchResult :=
  match stitchFn images mode with
  | .error _ => .failure .unknown
  | .ok (status, result) =>
    if status = .statusOk then .panorama result
    else .failure (classifyStatus status)

/-- A 2D point (image-plane coordinates). -/
structure Pt where
  x : Rat
  y : Rat
deriving DecidableEq, Repr

/-- The location of a keypoint. -/
def kpPt (k : Keypoint) : Pt := ⟨k.x, k.y⟩

/-- A homography: a 3x3 projective matrix mapping points of one image
plane to another's (spec section 3). -/
structure Homography where
  h11 : Rat
  h12 : Rat
  h13 : Rat
  h21 : Rat
  h22 : Rat
  h23 : Rat
  h31 : Rat
  h32 : Rat
  h33 : Rat
deriving DecidableEq, Repr

/-- Apply a homography to a point: projective application with
normalisation by the third homogeneous coordinate; `none` on the line
mapped to infinity (zero third coordinate). -/
def applyH (H : Homography) (p : Pt) : Option Pt :=
  let w := H.h31 * p.x + H.h32 * p.y + H.h33
  if w = 0 then none
  else some ⟨(H.h11 * p.x + H.h12 * p.y + H.h13) / w,
             (H.h21 * p.x + H.h22 * p.y + H.h23) / w⟩

/-- Squared Euclidean distance between two points. -/
def sqDist (p q : Pt) : Rat := (p.x - q.x) ^ 2 + (p.y - q.y) ^ 2

/-- Modelled from the spec: the RANSAC scoring step (section 4.3) —
a match is an inlier of a candidate homography when the reprojection
error of its query keypoint against its train keypoint is within the
threshold. -/
def isInlier (thresh : Rat) (H : Homography) (kpsA kpsB : List Keypoint)
    (m : DMatch) : Bool :=
  match applyH H (kpPt (kpsA.getD m.queryIdx defaultKeypoint)) with
  | none => false
  | some q =>
    decide (sqDist q (kpPt (kpsB.getD m.trainIdx defaultKeypoint)) ≤ thresh ^ 2)

/-- Number of matches in the set that are inliers of the candidate. -/
def inlierCount (thresh : Rat) (H : Homography) (kpsA kpsB : List Keypoint)
    (ms : List DMatch) : Nat :=
  (ms.filter (isInlier thresh H kpsA kpsB)).length

/-- Modelled from the spec: the minimum inlier support a candidate must
achieve (section 4.3: "a minimum inlier count (policy threshold, e.g.
>= 4 for a homography)"). -/
def minInlierCount : Nat := 4

/-- Modelled from the spec: the model-selection loop of RANSAC (section
4.3).  The candidate homographies solved from the seeded minimal-subset
samples are the `cands` argument (sampling and direct linear solving are
abstracted; a fixed seed makes the list a function of the inputs); the
loop keeps the candidate with the largest inlier support, preferring the
earliest on ties, and yields `none` when no candidate reaches
`minInlierCount`.  The final least-squares refinement of the winning
model does not change the success/failure outcome and is not modelled. -/
def ransacFit (thresh : Rat) (kpsA kpsB : List Keypoint) (ms : List DMatch) :
    List Homography → Option Homography
  | [] => none
  | H :: Hs =>
    let c := inlierCount thresh H kpsA kpsB ms
    if c < minInlierCount then ransacFit thresh kpsA kpsB ms Hs
    else
      match ransacFit thresh kpsA kpsB ms Hs with
      | none => some H
      | some H' =>
        if inlierCount thresh H' kpsA kpsB ms ≤ c then some H else some H'

/-- The verifier's typed failures (spec sections 4.3 and 7):
`InsufficientMatches` below the match-count threshold,
`HomographyEstimationFailed` when RANSAC finds no supported model. -/
inductive VerifyError where
  | insufficientMatches
  | homographyEstimationFailed
deriving DecidableEq, Repr

/-- Modelled from the spec: `verify(keypointsA, keypointsB, matches) ->
Transform | NotEnoughSupport` (section 4.3).  The verifier itself applies
the `minMatchCount` check and fails fast below threshold; otherwise it
runs the robust fit over the sampled candidates and fails with
`HomographyEstimationFailed` when no candidate achieves the minimum
inlier support. -/
def verify (cands : List Homography) (thresh : Rat)
    (kpsA kpsB : List Keypoint) (ms : List DMatch) :
    Except VerifyError Homography :=
  if ms.length < minMatchCount then .error .insufficientMatches
  else
    match ransacFit thresh kpsA kpsB ms cands with
    | some H => .ok H
    | none => .error .homographyEstimationFailed

/-- Outcome of the modelled end-to-end two-image pipeline: the verified
transform and the composed panorama, or the typed failure of the stage
that could not proceed (spec sections 2, 7). -/
inductive PipeResult where
  | panorama (H : Homography) (img : Image)
  | insufficientFeatures
  | insufficientMatches
  | homographyEstimationFailed
deriving DecidableEq, Repr

/-- Modelled from the spec: the end-to-end pipeline for one image pair
(section 2: Extractor per image, Matcher on the descriptors, Verifier on
the matches, Composer on the verified transform), with the pipeline
thresholds of section 6.  `sampler` is the seeded RANSAC candidate
sampler (section 4.3's determinism note: a fixed seed fixes the
candidates) and `blend` the composer's warping-and-blending step
(section 4.4), both abstracted as arguments. -/
def pipelineTwo (detector : Image → List (Keypoint × Descriptor))
    (sampler : Nat → List Homography) (seed : Nat) (thresh : Rat)
    (blend : Image → Image → Homography → Image)
    (img1 img2 : Image) : PipeResult :=
  let e1 := extract detector maxFeatures img1
  let e2 := extract detector maxFeatures img2
  if e1.1.length < minKeypointCount ∨ e2.1.length < minKeypointCount then
    .insufficientFeatures
  else
    let ms := bfMatch e1.2 e2.2
    match verify (sampler seed) thresh e1.1 e2.1 ms with
    | .error .insufficientMatches => .insufficientMatches
    | .error .homographyEstimationFailed => .homographyEstimationFailed
    | .ok H => .panorama H (blend img1 img2 H)

/-- Running the pipeline twice on the same inputs — the pair of the two
runs' results (spec section 8's idempotence scenario). -/
def pipelineTwoTwice (detector : Image → List (Keypoint × Descriptor))
    (sampler : Nat → List Homography) (seed : Nat) (thresh : Rat)
    (blend : Image → Image → Homography → Image)
    (img1 img2 : Image) : PipeResult × PipeResult :=
  (pipelineTwo detector sampler seed thresh blend img1 img2,
   pipelineTwo detector sampler seed thresh blend img1 img2)

/-- The caller-owned image store (spec section 3: images are owned by the
caller), threaded explicitly through each core operation so that frame
effects on it are expressible. -/
abbrev ImageStore : Type := List Image

/-- Store-passing extraction: reads the image at index `i` from the
caller's store, returns the store alongside the output (the core takes
the image by const reference, src/main.cpp line 43). -/
def extractSt (detector : Image → List (Keypoint × Descriptor)) (maxF : Nat)
    (st : ImageStore) (i : Nat) : ImageStore × (List Keypoint × List Descriptor) :=
  (st, extract detector maxF (st.getD i defaultImage))

/-- Store-passing matching: descriptors are derived data, the image store
is only carried through. -/
def matchSt (st : ImageStore) (A B : List Descriptor) :
    ImageStore × List DMatch :=
  (st, bfMatch A B)

/-- Store-passing verification: keypoints and matches are derived data,
the image store is only carried through. -/
def verifySt (st : ImageStore) (cands : List Homography) (thresh : Rat)
    (kpsA kpsB : List Keypoint) (ms : List DMatch) :
    ImageStore × Except VerifyError Homography :=
  (st, verify cands thresh kpsA kpsB ms)

/-- Store-passing composition: `stitch_images` takes the images by const
reference (src/main.cpp line 80) and writes only the fresh result image,
modelled as appending the new panorama after the caller's images. -/
def stitchImagesSt
    (stitchFn : List Image → StitchMode → Except CvException (StitchStatus × Image))
    (st : ImageStore) (mode : StitchMode) : ImageStore × StitchResult :=
  match stitch_images stitchFn st mode with
  | .panorama img => (st ++ [img], .panorama img)
  | .failure f => (st, .failure f)

/-- C1: for every list of input images, `stitch_images` either produces a
panorama image or returns one of the typed failures (TooFewImages,
HomographyEstimationFailed, CameraParamsAdjustmentFailed, Unknown)
identifying which stage could not proceed, and when the underlying
stitcher raises an exception the function still returns a typed failure
rather than letting the fault escape. -/
theorem stitch_images_typed_result
    (stitchFn : List Image → StitchMode → Except CvException (StitchStatus × Image))
    (images : List Image) (mode : StitchMode) :
    ((∃ img, stitch_images stitchFn images mode = .panorama img) ∨
     (∃ f, stitch_images stitchFn images mode = .failure f)) ∧
    (∀ e, stitchFn images mode = .error e →
      stitch_images stitchFn images mode = .failure .unknown) := by
  constructor
  · unfold stitch_images
    cases h : stitchFn images mode with
    | error e => exact Or.inr ⟨.unknown, rfl⟩
    | ok p =>
      obtain ⟨status, result⟩ := p
      by_cases hs : status = .statusOk
      · exact Or.inl ⟨result, by simp [hs]⟩
      · exact Or.inr ⟨classifyStatus status, by simp [hs]⟩
  · intro e he
    unfold stitch_images
    rw [he]

/-- C1 witness: an always-throwing stitcher still yields the typed
catch-all failure. -/
theorem stitch_images_typed_result_witness :
    stitch_images (fun _ _ => .error ⟨"cv fault"⟩) [] .panoramaMode =
      .failure .unknown :=
  (stitch_images_typed_result (fun _ _ => .error ⟨"cv fault"⟩) [] .panoramaMode).2
    ⟨"cv fault"⟩ rfl

/-- C2: for every input image, `extract` returns a keypoint sequence and
a descriptor sequence of equal length, and that length never exceeds the
configured cap of 5000 features. -/
theorem extract_parallel_and_capped
    (detector : Image → List (Keypoint × Descriptor)) (img : Image) :
    (extract detector maxFeatures img).1.length =
      (extract detector maxFeatures img).2.length ∧
    (extract detector maxFeatures img).1.length ≤ 5000 := by
  constructor
  · simp [extract]
  · simp only [extract, List.length_map, List.length_take, maxFeatures]
    omega

/-- C4: for every match set with fewer than 10 entries, `verify` itself
returns the InsufficientMatches failure, whatever candidate models the
fitter would have tried — so model fitting is never attempted. -/
theorem verify_below_min_match_count
    (kpsA kpsB : List Keypoint) (ms : List DMatch)
    (h : ms.length < 10) :
    ∀ (cands : List Homography) (thresh : Rat),
      verify cands thresh kpsA kpsB ms = .error .insufficientMatches := by
  intro cands thresh
  unfold verify
  simp only [minMatchCount]
  rw [if_pos h]

/-- C4 witness: the empty match set is rejected by `verify` even when a
candidate model is available. -/
theorem verify_below_min_match_count_witness :
    verify [⟨1, 0, 0, 0, 1, 0, 0, 0, 1⟩] 1 [] [] [] =
      .error .insufficientMatches :=
  verify_below_min_match_count [] [] [] (by decide) [⟨1, 0, 0, 0, 1, 0, 0, 0, 1⟩] 1

/-- C5: for every image pair where either image yields fewer than 50
keypoints, the feature step signals the insufficient-features failure,
and it does so for every matcher — descriptor matching is not attempted. -/
theorem features_below_threshold_fail_fast
    (detector : Image → List (Keypoint × Descriptor)) (img1 img2 : Image)
    (h : (extract detector maxFeatures img1).1.length < 50 ∨
         (extract detector maxFeatures img2).1.length < 50) :
    ∀ matcher, detectAndShowFeaturesR matcher detector img1 img2 =
      .insufficientFeatures := by
  intro matcher
  unfold detectAndShowFeaturesR
  simp only [minKeypointCount]
  rw [if_pos h]

/-- C5 witness: a detector finding no features at all makes the feature
step fail fast with the insufficient-features outcome under the actual
brute-force matcher. -/
theorem features_below_threshold_fail_fast_witness :
    detectAndShowFeaturesR bfMatch (fun _ => []) defaultImage defaultImage =
      .insufficientFeatures :=
  features_below_threshold_fail_fast (fun _ => []) defaultImage defaultImage
    (Or.inl (by simp [extract])) bfMatch

/-- C6: for every call to the matcher where either descriptor input is
empty, the result is the empty match sequence — a valid value, not a
fault. -/
theorem bfMatch_empty_input (A B : List Descriptor)
    (h : A = [] ∨ B = []) : bfMatch A B = [] := by
  rcases h with h | h
  · subst h
    unfold bfMatch
    split <;> simp
  · subst h
    unfold bfMatch
    rw [if_pos rfl]

/-- C6 witness: an empty query side yields the empty match sequence
against a non-empty train side. -/
theorem bfMatch_empty_input_witness : bfMatch [] [[true]] = [] :=
  bfMatch_empty_input [] [[true]] (Or.inl rfl)

/-- C8: with the random seed fixed, two runs of the full pipeline on the
same images and parameters yield identical results — the same verified
transform and the same panorama. -/
theorem pipeline_two_runs_identical
    (detector : Image → List (Keypoint × Descriptor))
    (sampler : Nat → List Homography) (seed : Nat) (thresh : Rat)
    (blend : Image → Image → Homography → Image) (img1 img2 : Image) :
    (pipelineTwoTwice detector sampler seed thresh blend img1 img2).1 =
      (pipelineTwoTwice detector sampler seed thresh blend img1 img2).2 :=
  rfl

/-- C9: every core operation leaves the caller's image store unchanged:
extraction, matching and verification return the store as they received
it, and composition only appends the fresh panorama after the caller's
images, which stay intact. -/
theorem core_ops_preserve_images
    (detector : Image → List (Keypoint × Descriptor)) (maxF : Nat)
    (st : ImageStore) (i : Nat) (A B : List Descriptor)
    (cands : List Homography) (thresh : Rat)
    (kpsA kpsB : List Keypoint) (ms : List DMatch)
    (stitchFn : List Image → StitchMode → Except CvException (StitchStatus × Image))
    (mode : StitchMode) :
    (extractSt detector maxF st i).1 = st ∧
    (matchSt st A B).1 = st ∧
    (verifySt st cands thresh kpsA kpsB ms).1 = st ∧
    (stitchImagesSt stitchFn st mode).1.take st.length = st := by
  refine ⟨rfl, rfl, rfl, ?_⟩
  unfold stitchImagesSt
  split
  · exact List.take_left st _
  · exact List.take_length st

/-- C10: the feature-detection-and-matching step succeeds exactly when
both images yield at least 50 keypoints and the brute-force match set has
at least 10 entries; there is no other cause of failure in that step. -/
theorem detect_and_show_features_true_iff
    (detector : Image → List (Keypoint × Descriptor)) (img1 img2 : Image) :
    detect_and_show_features detector img1 img2 = true ↔
      (50 ≤ (extract detector maxFeatures img1).1.length ∧
       50 ≤ (extract detector maxFeatures img2).1.length ∧
       10 ≤ (bfMatch (extract detector maxFeatures img1).2
               (extract detector maxFeatures img2).2).length) := by
  unfold detect_and_show_features detectAndShowFeaturesR
  simp only [minKeypointCount, minMatchCount]
  split_ifs with h1 h2 <;> simp <;> omega

/-- The nearest-neighbour search is sound: on a non-empty train set it
returns an in-range index whose distance is both the distance to the
returned descriptor and minimal over the whole train set. -/
theorem bestTrain_spec (a : Descriptor) (B : List Descriptor) (hB : B ≠ []) :
    ∃ j d, bestTrain a B = some (j, d) ∧ j < B.length ∧
      d = hammingDist a (B.getD j []) ∧
      ∀ k, k < B.length → d ≤ hammingDist a (B.getD k []) := by
  induction B with
  | nil => exact absurd rfl hB
  | cons b bs ih =>
    by_cases hbs : bs = []
    · subst hbs
      refine ⟨0, hammingDist a b, by simp [bestTrain], by simp, by simp, ?_⟩
      intro k hk
      have hk0 : k = 0 := by simpa using hk
      subst hk0
      simp
    · obtain ⟨j, d, hbt, hj, hd, hmin⟩ := ih hbs
      by_cases hle : hammingDist a b ≤ d
      · refine ⟨0, hammingDist a b, ?_, by simp, by simp, ?_⟩
        · simp only [bestTrain, hbt]
          rw [if_pos hle]
        · intro k hk
          cases k with
          | zero => simp
          | succ k' =>
            rw [List.getD_cons_succ]
            exact le_trans hle (hmin k' (Nat.lt_of_succ_lt_succ hk))
      · refine ⟨j + 1, d, ?_, Nat.succ_lt_succ hj, ?_, ?_⟩
        · simp only [bestTrain, hbt]
          rw [if_neg hle]
        · rw [List.getD_cons_succ]
          exact hd
        · intro k hk
          cases k with
          | zero =>
            rw [List.getD_cons_zero]
            omega
          | succ k' =>
            rw [List.getD_cons_succ]
            exact hmin k' (Nat.lt_of_succ_lt_succ hk)

/-- C3: for every pair of non-empty descriptor sequences, the matcher
emits exactly one match per query descriptor, pairing query index `i`
with a train index whose descriptor is nearest under Hamming distance,
and records that best distance. -/
theorem bfMatch_nearest_neighbor (A B : List Descriptor)
    (_hA : A ≠ []) (hB : B ≠ []) :
    (bfMatch A B).length = A.length ∧
    ∀ i, i < A.length →
      ∃ j d, (bfMatch A B).getD i ⟨0, 0, 0⟩ = ⟨i, j, d⟩ ∧ j < B.length ∧
        d = hammingDist (A.getD i []) (B.getD j []) ∧
        ∀ k, k < B.length → d ≤ hammingDist (A.getD i []) (B.getD k []) := by
  constructor
  · simp [bfMatch, hB]
  · intro i hi
    obtain ⟨j, d, hbt, hj, hd, hmin⟩ := bestTrain_spec (A.getD i []) B hB
    refine ⟨j, d, ?_, hj, hd, hmin⟩
    unfold bfMatch
    rw [if_neg hB]
    rw [List.getD_eq_getElem _ _ (by simpa using hi)]
    simp only [List.getElem_map, List.getElem_range]
    rw [hbt]

/-- C3 witness: one query descriptor against two train descriptors
produces exactly one match. -/
theorem bfMatch_nearest_neighbor_witness :
    (bfMatch [[true]] [[false], [true]]).length = 1 :=
  (bfMatch_nearest_neighbor [[true]] [[false], [true]]
    (by decide) (by decide)).1

/-- When no sampled candidate reaches the minimum inlier support, the
robust fit finds no model. -/
theorem ransacFit_none (thresh : Rat) (kpsA kpsB : List Keypoint)
    (ms : List DMatch) :
    ∀ cands : List Homography,
      (∀ H ∈ cands, inlierCount thresh H kpsA kpsB ms < minInlierCount) →
      ransacFit thresh kpsA kpsB ms cands = none
  | [], _ => rfl
  | H :: Hs, h => by
    unfold ransacFit
    rw [if_pos (h H (List.mem_cons_self H Hs))]
    exact ransacFit_none thresh kpsA kpsB ms Hs
      fun H' hH' => h H' (List.mem_cons_of_mem H hH')

/-- C7: for every image pair with zero spatial overlap — both images rich
enough in features (at least 50 keypoints each) but with no candidate
homography reaching the minimum inlier support of 4 over their matches —
the end-to-end pipeline yields InsufficientMatches or
HomographyEstimationFailed and never a successful panorama. -/
theorem pipeline_zero_overlap_never_panorama
    (detector : Image → List (Keypoint × Descriptor))
    (sampler : Nat → List Homography) (seed : Nat) (thresh : Rat)
    (blend : Image → Image → Homography → Image) (img1 img2 : Image)
    (h1 : 50 ≤ (extract detector maxFeatures img1).1.length)
    (h2 : 50 ≤ (extract detector maxFeatures img2).1.length)
    (hzero : ∀ H ∈ sampler seed,
      inlierCount thresh H (extract detector maxFeatures img1).1
        (extract detector maxFeatures img2).1
        (bfMatch (extract detector maxFeatures img1).2
          (extract detector maxFeatures img2).2) < 4) :
    (pipelineTwo detector sampler seed thresh blend img1 img2 =
        .insufficientMatches ∨
     pipelineTwo detector sampler seed thresh blend img1 img2 =
        .homographyEstimationFailed) ∧
    ∀ H img, pipelineTwo detector sampler seed thresh blend img1 img2 ≠
        .panorama H img := by
  have hfit := ransacFit_none thresh
    (extract detector maxFeatures img1).1 (extract detector maxFeatures img2).1
    (bfMatch (extract detector maxFeatures img1).2
      (extract detector maxFeatures img2).2)
    (sampler seed) hzero
  have hres : pipelineTwo detector sampler seed thresh blend img1 img2 =
      .insufficientMatches ∨
      pipelineTwo detector sampler seed thresh blend img1 img2 =
      .homographyEstimationFailed := by
    unfold pipelineTwo
    simp only [minKeypointCount]
    rw [if_neg (by omega)]
    unfold verify
    by_cases hms : (bfMatch (extract detector maxFeatures img1).2
        (extract detector maxFeatures img2).2).length < minMatchCount
    · rw [if_pos hms]
      exact Or.inl rfl
    · rw [if_neg hms, hfit]
      exact Or.inr rfl
  refine ⟨hres, ?_⟩
  intro H img hpan
  rcases hres with h | h <;> rw [hpan] at h <;> exact PipeResult.noConfusion h

/-- C7 witness: feature-rich images whose candidate set supports no
homography end in a typed failure, not a panorama. -/
theorem pipeline_zero_overlap_never_panorama_witness :
    (pipelineTwo (fun _ => List.replicate 50 (defaultKeypoint, [true]))
        (fun _ => []) 0 1 (fun i _ _ => i) defaultImage defaultImage =
        .insufficientMatches ∨
     pipelineTwo (fun _ => List.replicate 50 (defaultKeypoint, [true]))
        (fun _ => []) 0 1 (fun i _ _ => i) defaultImage defaultImage =
        .homographyEstimationFailed) :=
  (pipeline_zero_overlap_never_panorama
    (fun _ => List.replicate 50 (defaultKeypoint, [true]))
    (fun _ => []) 0 1 (fun i _ _ => i) defaultImage defaultImage
    (by simp [extract, maxFeatures]) (by simp [extract, maxFeatures])
    (by simp)).1

end MiniMap
